import Mathlib

/-!
Verification of the dataset-preparation module of the `dataaug` repository
(`src/dataaug/data/data_preparation.py`).

The module is embedded shallowly:

* configuration objects (`cfg_data`, `cfg_impl`, `cfg_hyp`) become plain
  structures holding exactly the fields the module reads;
* the external dataset constructors (torchvision / local dataset classes) are
  modelled as records carrying the dataset name, its length (the well-known
  sizes of those public datasets) and the `download` argument passed to the
  constructor (`none` when the call site passes no such argument, as for
  `torchvision.datasets.ImageNet`);
* the wrapper layers (`LMDBDataset`, dry-run `Subset`, `CachedDataset`, the
  size-reduction `Subset`) become an inductive tree `WDS`, so the order in
  which `construct_dataloader` stacks them is directly observable;
* `torch.randperm` is modelled as a computable permutation of `[0, n)` that is
  a deterministic function of the generator seed; the code path with
  `generator=None` draws from the ambient global RNG, modelled by threading an
  `ambientSeed` argument through the build;
* Python code that evaluates an unbound identifier (there are two such places
  in this module: `validset` in the caching comprehension of
  `construct_dataloader`, and `trainset` in `_get_meanstd`) raises `NameError`;
  fallible paths are therefore embedded in `Except String`;
* `torch.utils.data.DataLoader` is modelled by the fields the module sets:
  batch size, `drop_last`, the chosen sampler and its per-pass length
  (`RandomSampler`/`SequentialSampler` yield `len(dataset)` indices;
  `DistributedSampler` with its default `drop_last=False` yields
  `ceil(len(dataset) / world_size)` indices per process), with the number of
  batches per pass being `samplerLen / batch_size` under `drop_last=True`;
* Python `int()` truncation and banker's `round()` are embedded as `pyTrunc`
  and `pyRound` over `ℚ`.
-/

/-- Parameter value attached to one augmentation key in the config mapping. -/
inductive AugParam where
  | nat (n : Nat)
  | str (s : String)
  | natList (l : List Nat)
  | empty
deriving DecidableEq

/-- `cfg_data`: the data-configuration fields read by the module. -/
structure DataCfg where
  name : String
  split : String
  size : Nat
  batch_size : Nat
  mean : Option (List ℚ)
  std : Option (List ℚ)
  normalize : Bool
  deterministic_subsets : Bool
  caching : Bool
  db_name : String
  extra_validation : List String
  augmentations_train : List (String × AugParam)
  augmentations_val : List (String × AugParam)
  pixels : Nat

/-- `cfg_impl`: the implementation-configuration fields read by the module. -/
structure ImplCfg where
  threads : Nat
  pin_memory : Bool
  persistent_workers : Bool
  dist : Bool

/-- `cfg_hyp`: the hyperparameter fields read by the module. -/
structure HypCfg where
  shuffle : Bool
  sample_with_replacement : Bool

/-- A base dataset as returned by the external dataset constructors.
`length` models the (fixed, public) size of the external dataset;
`download` records the `download=` argument passed at the construction site
(`none` when the constructor call passes no download argument at all). -/
structure RawDS where
  name : String
  length : Nat
  download : Option Bool
deriving DecidableEq

/-- The wrapper layers `construct_dataloader` / `_build_datasets` stack on a
base dataset: `LMDBDataset`, `Subset` (used both for the dry-run truncation
and for the size reduction), `CachedDataset`. -/
inductive WDS where
  | base (d : RawDS)
  | lmdbWrap (inner : WDS)
  | subsetW (inner : WDS) (indices : List Nat)
  | cachedW (inner : WDS) (num_workers : Nat) (pin_memory : Bool)
deriving DecidableEq

/-- Dataset length through the wrappers.  `LMDBDataset` and `CachedDataset`
are transparent (wrapping never changes the length); a `Subset` has the length
of its index list. -/
def WDS.len : WDS → Nat
  | .base d => d.length
  | .lmdbWrap i => WDS.len i
  | .subsetW _ idx => idx.length
  | .cachedW i _ _ => WDS.len i

/-- The chain of wrapper constructors, outermost first, ending at `"base"`. -/
def WDS.chain : WDS → List String
  | .base _ => ["base"]
  | .lmdbWrap i => "lmdb" :: WDS.chain i
  | .subsetW i _ => "subset" :: WDS.chain i
  | .cachedW i _ _ => "cached" :: WDS.chain i

/-- Whether the outermost wrapper (the one applied last) is a `Subset`. -/
def WDS.subsetOutermost : WDS → Bool
  | .subsetW _ _ => true
  | _ => false

/-- The base dataset record underneath all wrappers. -/
def WDS.baseDS : WDS → RawDS
  | .base d => d
  | .lmdbWrap i => WDS.baseDS i
  | .subsetW i _ => WDS.baseDS i
  | .cachedW i _ _ => WDS.baseDS i

/-- Model of `torch.randperm(n, generator=g)`: a permutation of `[0, n)` that
is a deterministic function of the generator seed (the concrete mixing is an
external implementation detail; what the module relies on is only that the
result is determined by the seed and varies with it). -/
def randperm (n seed : Nat) : List Nat :=
  (List.range n).map (fun i => (i + seed) % n)

/-- Lines 190–198 of `_build_datasets`: if `cfg_data.size < len(trainset)`,
draw a permutation (generator seeded with the constant 89 when
`deterministic_subsets`, otherwise `generator=None`, i.e. the ambient global
RNG) and keep the first `size` indices as a `Subset`. -/
def sizeReduceTrain (trainLen size : Nat) (deterministic_subsets : Bool)
    (ambientSeed : Nat) (trainset : WDS) : WDS :=
  if size < trainLen then
    let seed := if deterministic_subsets = true then 89 else ambientSeed
    WDS.subsetW trainset ((randperm trainLen seed).take size)
  else trainset

/-- Lines 120–148 of `_build_datasets`: dispatch on `cfg_data.name`, passing
`download=can_download` to every constructor that takes that argument.  The
`torchvision.datasets.ImageNet` calls pass no download argument (`none`).
Unknown names raise `ValueError`.  Dataset sizes model the external datasets. -/
def selectDatasets (cfg_data : DataCfg) (can_download : Bool) :
    Except String (RawDS × RawDS) :=
  if cfg_data.name = "CIFAR10" then
    .ok (⟨"CIFAR10", 50000, some can_download⟩, ⟨"CIFAR10", 10000, some can_download⟩)
  else if cfg_data.name = "MNIST" then
    .ok (⟨"MNIST", 60000, some can_download⟩, ⟨"MNIST", 10000, some can_download⟩)
  else if cfg_data.name = "EMNIST" then
    .ok (⟨"EMNIST", 112800, some can_download⟩, ⟨"EMNIST", 18800, some can_download⟩)
  else if cfg_data.name = "SVHN" then
    .ok (⟨"SVHN", 73257, some can_download⟩, ⟨"SVHN", 26032, some can_download⟩)
  else if cfg_data.name = "CINIC10" then
    .ok (⟨"CINIC10", 90000, some can_download⟩, ⟨"CINIC10", 90000, some can_download⟩)
  else if cfg_data.name = "CIFAR100" then
    .ok (⟨"CIFAR100", 50000, some can_download⟩, ⟨"CIFAR100", 10000, some can_download⟩)
  else if cfg_data.name = "ImageNet" then
    .ok (⟨"ImageNet", 1281167, none⟩, ⟨"ImageNet", 50000, none⟩)
  else if cfg_data.name = "TinyImageNet" then
    .ok (⟨"TinyImageNet", 100000, some can_download⟩, ⟨"TinyImageNet", 10000, some can_download⟩)
  else .error ("ValueError: Invalid dataset " ++ cfg_data.name ++ " provided.")

/-- Lines 203–207, `_get_meanstd(dataset)`: the body reads
`range(len(trainset))`, but `trainset` is not bound in the function (its
parameter is named `dataset` and no global `trainset` exists), so evaluation
raises `NameError` before any dataset access. -/
def get_meanstd (dataset : WDS) : Except String (Option (List ℚ) × Option (List ℚ)) :=
  .error "NameError: name trainset is not defined"

/-- Lines 150–153 of `_build_datasets`: if `cfg_data.mean is None` compute the
statistics with `_get_meanstd`, otherwise return the configured mean/std
unchanged (no dataset access on that branch). -/
def resolveStats (cfg_data : DataCfg) (trainset : WDS) :
    Except String (Option (List ℚ) × Option (List ℚ)) :=
  if cfg_data.mean = none then get_meanstd trainset
  else .ok (cfg_data.mean, cfg_data.std)

/-- Python `int()` on a rational: truncation toward zero. -/
def pyTrunc (q : ℚ) : ℤ :=
  if 0 ≤ q then ⌊q⌋ else ⌈q⌉

/-- Python `round()` on a rational: round half to even. -/
def pyRound (q : ℚ) : ℤ :=
  if q - ⌊q⌋ < 1/2 then ⌊q⌋
  else if 1/2 < q - ⌊q⌋ then ⌊q⌋ + 1
  else if ⌊q⌋ % 2 = 0 then ⌊q⌋ else ⌊q⌋ + 1

/-- The parameters the TIMM-style auto-augmentation builders receive
(`aa_params` in `_get_autoaugment_timm`) together with the chosen builder. -/
structure TimmTransform where
  kind : String
  spec : String
  translate_const : ℤ
  img_mean : List ℤ
  translate_pct : Option ℚ
deriving DecidableEq

/-- Lines 210–223, `_get_autoaugment_timm`: builds
`aa_params = dict(translate_const=int(img_size_min * 0.45),
img_mean=tuple([min(255, round(255 * x)) for x in mean]))` and dispatches on
the key spelling (`rand…` / `augmix…` / otherwise); the `augmix` branch adds
`translate_pct=0.3`. -/
def get_autoaugment_timm (auto_augment : String) (img_size_min : ℚ)
    (mean : List ℚ) : TimmTransform :=
  let tc : ℤ := pyTrunc (img_size_min * (45 / 100))
  let im : List ℤ := mean.map (fun x => min 255 (pyRound (255 * x)))
  if auto_augment.startsWith "rand" then ⟨"rand_augment", auto_augment, tc, im, none⟩
  else if auto_augment.startsWith "augmix" then
    ⟨"augment_and_mix", auto_augment, tc, im, some (3 / 10)⟩
  else ⟨"auto_augment", auto_augment, tc, im, none⟩

/-- A resolved augmentation operation (one element of the composed pipeline). -/
inductive Transform where
  | timm (t : TimmTransform)
  | tvAA (key policy : String)
  | toRGB
  | resize (size : List Nat)
  | cutout (param : AugParam) (mask_color : Option (List ℚ))
  | generic (key : String) (param : AugParam)
  | toTensor
  | normalize (mean std : Option (List ℚ))
deriving DecidableEq

/-- String payload of a parameter (the TIMM / torchvision policy keys). -/
def AugParam.asString : AugParam → String
  | .str s => s
  | _ => ""

/-- Numeric payload of a parameter (the `Resize` side length). -/
def AugParam.asNat : AugParam → Nat
  | .nat n => n
  | _ => 0

/-- The dispatch on one augmentation key inside `_parse_cfg_dict`
(lines 242–261): TIMM policies, torchvision auto-augment policies, `ToRGB`,
the square-forcing `Resize` special case (`size=[v, v]`), `Cutout` with
`mask_color=cfg_data.mean`, and the generic torchvision constructor lookup for
any other key. -/
def resolveAugKey (cfg_data : DataCfg) (key : String) (param : AugParam) : Transform :=
  if key = "RandAugment" ∨ key = "AutoAugment" ∨ key = "AugMix" then
    .timm (get_autoaugment_timm param.asString (cfg_data.pixels : ℚ)
      (cfg_data.mean.getD []))
  else if key = "tvRandAugment" ∨ key = "tvAutoAugment" then
    .tvAA key param.asString
  else if key = "ToRGB" then .toRGB
  else if key = "Resize" then .resize [param.asNat, param.asNat]
  else if key = "Cutout" then .cutout param cfg_data.mean
  else .generic key param

/-- `_parse_cfg_dict`: resolve every named entry in mapping iteration order. -/
def parse_cfg_dict (cfg_data : DataCfg) (cfg_dict : List (String × AugParam)) :
    List Transform :=
  cfg_dict.map (fun kv => resolveAugKey cfg_data kv.1 kv.2)

/-- Lines 264–274 of `_parse_data_augmentations` (with its default
`PIL_only=False`): after resolving the train and validation specs, append
`ToTensor`, then — only when `cfg_data.normalize` — append
`Normalize(cfg_data.mean, cfg_data.std)`; both composed pipelines apply their
operations in list order. -/
def parse_data_augmentations (cfg_data : DataCfg) : List Transform × List Transform :=
  let tailOps : List Transform :=
    [Transform.toTensor] ++
      (if cfg_data.normalize = true then
        [Transform.normalize cfg_data.mean cfg_data.std] else [])
  (parse_cfg_dict cfg_data cfg_data.augmentations_train ++ tailOps,
   parse_cfg_dict cfg_data cfg_data.augmentations_val ++ tailOps)

/-- Python-dict insertion into the validation-set mapping: overwrite in place
when the key exists, otherwise append (insertion order preserved). -/
def dictInsert (m : List (String × WDS)) (k : String) (v : WDS) :
    List (String × WDS) :=
  if m.any (fun kv => kv.1 == k) then
    m.map (fun kv => if kv.1 == k then (k, v) else kv)
  else m ++ [(k, v)]

/-- Lines 162–188 of `_build_datasets`: one extra validation dataset by name,
each constructed with `download=can_download`; unknown names raise
`ValueError`. -/
def buildExtraValid (can_download : Bool) (nm : String) : Except String RawDS :=
  if nm = "CINIC10" then .ok ⟨"CINIC10", 90000, some can_download⟩
  else if nm = "CIFAR10-C" then .ok ⟨"CIFAR10-C", 10000, some can_download⟩
  else if nm = "CIFAR10" then .ok ⟨"CIFAR10", 10000, some can_download⟩
  else .error ("ValueError: Invalid extra validation set " ++ nm ++ " given.")

/-- Fold the configured extra validation names into the mapping. -/
def addExtraValidsets (can_download : Bool) (acc : List (String × WDS)) :
    List String → Except String (List (String × WDS))
  | [] => .ok acc
  | nm :: rest =>
    match buildExtraValid can_download nm with
    | .error e => .error e
    | .ok ds => addExtraValidsets can_download (dictInsert acc nm (WDS.base ds)) rest

/-- The validation-set mapping: primary set keyed by the dataset name, then
the extra validation sets merged in. -/
def buildValidsets (cfg_data : DataCfg) (can_download : Bool) (validRaw : RawDS) :
    Except String (List (String × WDS)) :=
  addExtraValidsets can_download [(cfg_data.name, WDS.base validRaw)]
    cfg_data.extra_validation

/-- `_build_datasets` (lines 118–200): select the datasets, resolve the
normalization statistics (`NameError` when `cfg_data.mean is None`, see
`get_meanstd`; the computed values are bound to locals that the rest of the
function never reads), build the validation mapping, and finally reduce the
train set with a `Subset` when `cfg_data.size < len(trainset)`. -/
def build_datasets (cfg_data : DataCfg) (can_download : Bool) (ambientSeed : Nat) :
    Except String (WDS × List (String × WDS)) :=
  Except.bind (selectDatasets cfg_data can_download) (fun tv =>
    Except.bind (resolveStats cfg_data (WDS.base tv.1)) (fun _stats =>
      Except.bind (buildValidsets cfg_data can_download tv.2) (fun validsets =>
        Except.ok
          (sizeReduceTrain tv.1.length cfg_data.size
            cfg_data.deterministic_subsets ambientSeed (WDS.base tv.1),
           validsets))))

/-- Line 45 of `construct_dataloader`: the caching dict comprehension
`{k: CachedDataset(validset, …) for k, v in validsets.items()}` binds the loop
variable `v` but its value expression reads `validset`, an identifier bound
nowhere in the function, so evaluating the value for the first item raises
`NameError` (an empty mapping would evaluate no value expression). -/
def cachedValidsets (caching : Bool) (validsets : List (String × WDS)) :
    Except String (List (String × WDS)) :=
  if caching = true then
    match validsets with
    | [] => .ok []
    | _ :: _ => .error "NameError: name validset is not defined"
  else .ok validsets

/-- A `torch.utils.data.DataLoader` as configured by this module: the batch
size it was given, `drop_last`, the sampler choice and the number of indices
that sampler yields in one pass, plus the worker settings. -/
structure Loader where
  samplerKind : String
  samplerLen : Nat
  batch_size : Nat
  drop_last : Bool
  num_workers : Nat
  pin_memory : Bool
  persistent_workers : Bool
deriving DecidableEq

/-- Batches produced by one full pass: with `drop_last=True` the trailing
partial batch is discarded, so `samplerLen / batch_size` (floor). -/
def Loader.numBatches (l : Loader) : Nat :=
  if l.drop_last then l.samplerLen / l.batch_size
  else (l.samplerLen + l.batch_size - 1) / l.batch_size

/-- Lines 52–64: the train sampler choice. -/
def pickTrainSampler (dist shuffle replacement : Bool) : String :=
  if dist then "distributed"
  else if shuffle then
    (if replacement then "random_with_replacement" else "random")
  else "sequential"

/-- Indices yielded per pass: `RandomSampler` (either replacement mode) and
`SequentialSampler` yield `len(dataset)`; `DistributedSampler` (with its
default `drop_last=False`) yields `ceil(len(dataset) / world_size)` indices on
each process. -/
def samplerLenOf (kind : String) (n world_size : Nat) : Nat :=
  if kind = "distributed" then (n + world_size - 1) / world_size else n

/-- Lines 66–74: the train loader, `batch_size=min(cfg_data.batch_size,
len(trainset))`, `drop_last=True`, persistent workers only when
`num_workers > 0`. -/
def mkTrainLoader (n batch_size : Nat) (dist shuffle replacement : Bool)
    (world_size num_workers : Nat) (pin persistent : Bool) : Loader :=
  let kind := pickTrainSampler dist shuffle replacement
  { samplerKind := kind
    samplerLen := samplerLenOf kind n world_size
    batch_size := min batch_size n
    drop_last := true
    num_workers := num_workers
    pin_memory := pin
    persistent_workers := if 0 < num_workers then persistent else false }

/-- Lines 78–86: each validation loader, `shuffle=False` (sequential),
`batch_size=min(cfg_data.batch_size, len(validset))`, `drop_last=True`,
`persistent_workers=False`. -/
def mkValidLoader (n batch_size num_workers : Nat) (pin : Bool) : Loader :=
  { samplerKind := "sequential"
    samplerLen := n
    batch_size := min batch_size n
    drop_last := true
    num_workers := num_workers
    pin_memory := pin
    persistent_workers := false }

/-- Everything `construct_dataloader` returns (plus the wrapped datasets the
loaders were built from, to make the wrapper stacking observable). -/
structure LoaderBundle where
  trainWrapped : WDS
  validWrapped : List (String × WDS)
  trainLoader : Loader
  validLoaders : List (String × Loader)
deriving DecidableEq

/-- `construct_dataloader` (lines 25–89): build the datasets with
`can_download = not cfg_impl.setup.dist`; wrap the train set in `LMDBDataset`
when `cfg_data.db.name == "LMDB"` (the distributed leader-first barrier around
store creation is a concurrency concern outside this embedding); on `dryrun`
truncate train and every validation set to `Subset(…, arange(batch_size *
num_machines))`; when `cfg_data.caching`, wrap the train set in
`CachedDataset` and then fail with `NameError` while building the cached
validation mapping (see `cachedValidsets`); finally build the loaders. -/
def construct_dataloader (cfg_data : DataCfg) (cfg_impl : ImplCfg) (cfg_hyp : HypCfg)
    (dryrun : Bool) (world_size numThreadsAvail cudaDevices ambientSeed : Nat) :
    Except String LoaderBundle :=
  match build_datasets cfg_data (!cfg_impl.dist) ambientSeed with
  | .error e => .error e
  | .ok (trainset0, validsets0) =>
    let trainset1 := if cfg_data.db_name = "LMDB" then WDS.lmdbWrap trainset0 else trainset0
    let trainset2 :=
      if dryrun = true then
        WDS.subsetW trainset1 (List.range (cfg_data.batch_size * world_size))
      else trainset1
    let validsets1 :=
      if dryrun = true then
        validsets0.map (fun kv =>
          (kv.1, WDS.subsetW kv.2 (List.range (cfg_data.batch_size * world_size))))
      else validsets0
    let trainset3 :=
      if cfg_data.caching = true then
        WDS.cachedW trainset2 cfg_impl.threads cfg_impl.pin_memory
      else trainset2
    match cachedValidsets cfg_data.caching validsets1 with
    | .error e => .error e
    | .ok validsets2 =>
      let num_workers :=
        if 0 < cfg_impl.threads ∧ 1 < numThreadsAvail then
          (min numThreadsAvail cfg_impl.threads) / max 1 cudaDevices
        else 0
      .ok { trainWrapped := trainset3
            validWrapped := validsets2
            trainLoader := mkTrainLoader trainset3.len cfg_data.batch_size
              cfg_impl.dist cfg_hyp.shuffle cfg_hyp.sample_with_replacement
              world_size num_workers cfg_impl.pin_memory cfg_impl.persistent_workers
            validLoaders := validsets2.map (fun kv =>
              (kv.1, mkValidLoader kv.2.len cfg_data.batch_size num_workers
                cfg_impl.pin_memory)) }

/-- The image value a pipeline acts on: a PIL image or a tensor, with height,
width, colorspace mode and (for tensors) the normalization stats applied. -/
inductive ImgValue where
  | pil (h w : Nat) (mode : String)
  | tensor (h w : Nat) (mode : String)
      (normedWith : Option (Option (List ℚ) × Option (List ℚ)))
deriving DecidableEq

/-- Whether the value is tensor-typed. -/
def ImgValue.isTensor : ImgValue → Bool
  | .tensor _ _ _ _ => true
  | _ => false

/-- Semantics of the operations exercised by the built pipelines:
`Resize(size=[a, b])` forces the output extent to `a × b`; `ToRGB` converts
the colorspace of a PIL image; `ToTensor` converts to a tensor; `Normalize`
records the stats on a tensor.  The remaining operations (TIMM and
torchvision policies, `Cutout`, generic constructors) are external
augmentations modelled as shape- and type-preserving. -/
def applyTransform : Transform → ImgValue → ImgValue
  | .resize sz, .pil _ _ m => .pil (sz.getD 0 0) (sz.getD 1 0) m
  | .resize sz, .tensor _ _ m nm => .tensor (sz.getD 0 0) (sz.getD 1 0) m nm
  | .toRGB, .pil h w _ => .pil h w "RGB"
  | .toRGB, v => v
  | .toTensor, .pil h w m => .tensor h w m none
  | .toTensor, v => v
  | .normalize me st, .tensor h w m _ => .tensor h w m (some (me, st))
  | .normalize _ _, v => v
  | _, v => v

/-- `transforms.Compose`: apply the operations in list order. -/
def applyOps (ops : List Transform) (v : ImgValue) : ImgValue :=
  ops.foldl (fun acc t => applyTransform t acc) v

/-- A Python dataset object as seen by the `Subset` class: its `transform` and
`classes` attributes hold references (modelled as reference identifiers). -/
structure PyDataset where
  transform : Nat
  classes : Nat
deriving DecidableEq

/-- A `Subset` instance (lines 280–285): the attributes it binds in
`__init__`. -/
structure PySubsetObj where
  datasetRef : Nat
  indices : List Nat
  transform : Nat
  classes : Nat
deriving DecidableEq

/-- `Subset.__init__`: `self.transform = dataset.transform` and
`self.classes = dataset.classes` copy the references the parent holds at
construction time. -/
def subsetInit (dataset : PyDataset) (datasetRef : Nat) (indices : List Nat) :
    PySubsetObj :=
  { datasetRef := datasetRef
    indices := indices
    transform := dataset.transform
    classes := dataset.classes }

/-- Attribute assignment `dataset.transform = t` on the parent: rebinds the
parent's own attribute and nothing else. -/
def setTransformAttr (d : PyDataset) (t : Nat) : PyDataset :=
  { d with transform := t }

/-- A baseline configuration: CIFAR10, explicit mean/std, no caching, no
durable store, size equal to the train length (so no size reduction). -/
def cfgBase : DataCfg :=
  { name := "CIFAR10"
    split := ""
    size := 50000
    batch_size := 32
    mean := some [125/256, 123/256, 114/256]
    std := some [63/256, 62/256, 67/256]
    normalize := true
    deterministic_subsets := false
    caching := false
    db_name := ""
    extra_validation := []
    augmentations_train := []
    augmentations_val := []
    pixels := 32 }

/-- Baseline implementation configuration: 4 threads, not distributed. -/
def implStd : ImplCfg :=
  { threads := 4, pin_memory := false, persistent_workers := false, dist := false }

/-- Baseline hyperparameters: shuffled sampling without replacement. -/
def hypStd : HypCfg := { shuffle := true, sample_with_replacement := false }

/-- The configuration family used for the wrapper-order theorems: CIFAR10 with
a selectable durable-store backend and train-set size, caching off. -/
def cfgFam (lmdbOn : Bool) (size : Nat) : DataCfg :=
  { cfgBase with db_name := if lmdbOn then "LMDB" else "", size := size }

/-- `cfgBase` with the dataset name replaced. -/
def cfgNamed (nm : String) : DataCfg := { cfgBase with name := nm }

/-- `cfgBase` with caching enabled. -/
def cfgCachingOn : DataCfg := { cfgBase with caching := true }

/-- `cfgBase` with no configured mean/std (statistics must be computed). -/
def cfgNoMean : DataCfg := { cfgBase with mean := none, std := none }

/-- `cfgBase` with deterministic subsets and a reducing size. -/
def cfgDet : DataCfg := { cfgBase with deterministic_subsets := true, size := 1000 }

/-- `cfgBase` with the example augmentation spec `{"Resize": 64, "ToRGB": {}}`
and a selectable normalize flag. -/
def cfgEx (norm : Bool) : DataCfg :=
  { cfgBase with
    augmentations_train := [("Resize", AugParam.nat 64), ("ToRGB", AugParam.empty)]
    augmentations_val := [("Resize", AugParam.nat 64), ("ToRGB", AugParam.empty)]
    normalize := norm }

/-- A sample base dataset record for concrete instantiations. -/
def exDS : RawDS := ⟨"CIFAR10", 50000, some true⟩

/-- A second, different base dataset record. -/
def exDS2 : RawDS := ⟨"MNIST", 60000, some false⟩

/-- `cfgBase` with an LMDB durable store and a reducing train-set size. -/
def cfgC1 : DataCfg := { cfgBase with db_name := "LMDB", size := 24 }

/-- `cfgBase` with the explicit statistics `mean=[0.5,0.5,0.5]`,
`std=[0.5,0.5,0.5]` of the normalization-idempotence check. -/
def cfgHalf : DataCfg :=
  { cfgBase with mean := some [1/2, 1/2, 1/2], std := some [1/2, 1/2, 1/2] }

/-- `implStd` with distributed mode enabled. -/
def implDist : ImplCfg := { implStd with dist := true }

/-- Helper: `_build_datasets` on the `cfgFam` family with a reducing size:
the train result is the size-reduction `Subset` directly over the base
dataset, and the validation mapping holds the primary validation set. -/
theorem build_datasets_cfgFam (lmdbOn : Bool) (size seed : Nat) (h : size < 50000) :
    build_datasets (cfgFam lmdbOn size) true seed =
      .ok (WDS.subsetW (WDS.base ⟨"CIFAR10", 50000, some true⟩)
            ((randperm 50000 seed).take size),
           [("CIFAR10", WDS.base ⟨"CIFAR10", 10000, some true⟩)]) := by
  unfold build_datasets selectDatasets resolveStats buildValidsets addExtraValidsets
    sizeReduceTrain
  simp [cfgFam, cfgBase, h, Except.bind]

/-- C1 (amended): the wrapper layers are applied in the order size-reduction
subsetting first (inside dataset building), then durable-index (LMDB)
wrapping, then dry-run truncation, then caching; with caching off and a
reducing size, the train wrapper chain (outermost first) is the optional
dry-run subset, the optional LMDB wrapper, the size-reduction subset, and the
base dataset. -/
theorem C1_wrap_order (lmdbOn dry : Bool) (size seed W : Nat) (h : size < 50000) :
    Except.map (fun b => WDS.chain b.trainWrapped)
        (construct_dataloader (cfgFam lmdbOn size) implStd hypStd dry W 4 1 seed) =
      .ok ((if dry then ["subset"] else []) ++ (if lmdbOn then ["lmdb"] else []) ++
        ["subset", "base"]) := by
  unfold construct_dataloader
  rw [show (!implStd.dist) = true from rfl, build_datasets_cfgFam lmdbOn size seed h]
  cases lmdbOn <;> cases dry <;>
    simp [cfgFam, cfgBase, cachedValidsets, WDS.chain, Except.map]

/-- C1 witness: the amended order at a concrete input with every layer
enabled except caching. -/
theorem C1_wrap_order_witness :
    Except.map (fun b => WDS.chain b.trainWrapped)
        (construct_dataloader (cfgFam true 24) implStd hypStd true 2 4 1 0) =
      .ok ["subset", "lmdb", "subset", "base"] :=
  C1_wrap_order true true 24 0 2 (by decide)

/-- C1 counterexample: with the LMDB store enabled and `size < len(trainset)`,
the size-reduction `Subset` sits *inside* the LMDB wrapper (chain
`["lmdb", "subset", "base"]`), so it is formed before — not after —
durable-index wrapping, refuting the claimed order at this input. -/
theorem C1_wrap_order_cex :
    Except.map (fun b => (WDS.chain b.trainWrapped, WDS.subsetOutermost b.trainWrapped))
        (construct_dataloader cfgC1 implStd hypStd false 1 4 1 0) =
      .ok (["lmdb", "subset", "base"], false) ∧ cfgC1.size < 50000 :=
  ⟨rfl, by decide⟩

/-- C2 (code bug): with caching enabled, `construct_dataloader` raises
`NameError` while building the cached validation mapping (the comprehension on
line 45 reads the unbound name `validset` instead of its loop variable `v`),
instead of returning normally with cache-wrapped validation sets; the same
configuration without caching returns normally. -/
theorem C2_caching_bug :
    construct_dataloader cfgCachingOn implStd hypStd false 1 4 1 0 =
      .error "NameError: name validset is not defined" ∧
    (∃ b, construct_dataloader cfgBase implStd hypStd false 1 4 1 0 = .ok b) :=
  ⟨rfl, ⟨_, rfl⟩⟩

/-- C3 (code bug): the statistics resolver returns explicit mean/std from the
configuration unchanged and independently of the dataset, but when no explicit
mean is configured it raises `NameError` (the body of `_get_meanstd` reads
`trainset`, which is not bound — its parameter is `dataset`) instead of
iterating the training samples. -/
theorem C3_meanstd_bug :
    resolveStats cfgHalf (WDS.base exDS) =
      .ok (some [1/2, 1/2, 1/2], some [1/2, 1/2, 1/2]) ∧
    resolveStats cfgHalf (WDS.base exDS2) = resolveStats cfgHalf (WDS.base exDS) ∧
    resolveStats cfgNoMean (WDS.base exDS) =
      .error "NameError: name trainset is not defined" :=
  ⟨rfl, rfl, rfl⟩

/-- C4 (code bug): with `mean=None` and normalization enabled,
`_build_datasets` crashes inside `_get_meanstd` before any pipeline is built,
so the computed statistics can never reach the normalization step; on the
explicit-mean path the appended `Normalize` step receives the raw
configuration values `cfg_data.mean` / `cfg_data.std` (the locals `data_mean`
/ `data_std` holding the resolver output are never read again). -/
theorem C4_normalize_bug :
    build_datasets cfgNoMean true 0 =
      .error "NameError: name trainset is not defined" ∧
    (parse_data_augmentations cfgBase).1.getLast? =
      some (Transform.normalize cfgBase.mean cfgBase.std) ∧
    (parse_data_augmentations cfgBase).1 =
      [Transform.toTensor,
       Transform.normalize (some [125/256, 123/256, 114/256])
         (some [63/256, 62/256, 67/256])] :=
  ⟨rfl, rfl, rfl⟩

/-- Helper: Python `round` of a nonnegative rational is nonnegative. -/
theorem pyRound_nonneg (q : ℚ) (h : 0 ≤ q) : 0 ≤ pyRound q := by
  have hf : (0 : ℤ) ≤ ⌊q⌋ := Int.floor_nonneg.mpr h
  unfold pyRound
  split_ifs <;> omega

/-- Helper: the numeric parameters built by `_get_autoaugment_timm` do not
depend on which of the three policy branches is taken. -/
theorem get_autoaugment_timm_params (s : String) (d : ℚ) (mean : List ℚ) :
    (get_autoaugment_timm s d mean).translate_const = pyTrunc (d * (45 / 100)) ∧
    (get_autoaugment_timm s d mean).img_mean =
      mean.map (fun x => min 255 (pyRound (255 * x))) := by
  refine ⟨?_, ?_⟩ <;> (unfold get_autoaugment_timm; split_ifs <;> rfl)

/-- Helper: `int(224 * 0.45) = 100` (truncation). -/
theorem pyTrunc_224 : pyTrunc ((224 : ℚ) * (45 / 100)) = 100 := by
  unfold pyTrunc
  rw [if_pos (by norm_num : (0 : ℚ) ≤ 224 * (45 / 100))]
  norm_num

/-- Helper: `round(0.45 * 224) = 101`. -/
theorem pyRound_224 : pyRound ((45 / 100 : ℚ) * 224) = 101 := by
  unfold pyRound
  have hf : ⌊(45 / 100 : ℚ) * 224⌋ = 100 := by norm_num
  rw [hf]
  norm_num

/-- Helper: `round(255 * (-0.5)) = -128` (banker's rounding at `-127.5`). -/
theorem pyRound_neg : pyRound (255 * -(1 / 2) : ℚ) = -128 := by
  unfold pyRound
  have hf : ⌊(255 * -(1 / 2) : ℚ)⌋ = -128 := by norm_num
  rw [hf]
  norm_num

/-- C5 counterexample: at `min_image_dimension = 224` (the ImageNet pixel
size) the code's `int(224 * 0.45)` is 100 while `round(224 * 0.45)` is 101,
and for a channel mean of `-0.5` the code's `min(255, round(255 * x))` is
`-128` while the claimed clamp to `[0, 255]` would give 0. -/
theorem C5_timm_params_cex :
    (get_autoaugment_timm "rand-m7-mstd0.5-inc1" 224 [-(1/2)]).translate_const = 100 ∧
    pyRound ((45/100 : ℚ) * 224) = 101 ∧
    (get_autoaugment_timm "rand-m7-mstd0.5-inc1" 224 [-(1/2)]).img_mean = [-128] ∧
    max 0 (min 255 (pyRound (255 * -(1/2) : ℚ))) = 0 := by
  refine ⟨?_, pyRound_224, ?_, ?_⟩
  · rw [(get_autoaugment_timm_params "rand-m7-mstd0.5-inc1" 224 [-(1/2)]).1]
    exact pyTrunc_224
  · rw [(get_autoaugment_timm_params "rand-m7-mstd0.5-inc1" 224 [-(1/2)]).2]
    simp only [List.map_cons, List.map_nil]
    rw [pyRound_neg]
    norm_num
  · rw [pyRound_neg]
    norm_num

/-- C5 (amended): the TIMM auto-augmentation operations are parameterized with
a translate distance equal to the *truncation* `int(0.45 × min_image_dimension)`
(equivalently `⌊0.45 × d⌋` for the nonnegative pixel size, which differs from
rounding), and with per-channel means converted as `min(255, round(255 × x))`
— clamped above only; for nonnegative channel means this coincides with the
clamp to `[0, 255]`. -/
theorem C5_timm_params (s : String) (d : Nat) (mean : List ℚ)
    (hx : ∀ x ∈ mean, 0 ≤ x) :
    (get_autoaugment_timm s (d : ℚ) mean).translate_const = ⌊(45/100 : ℚ) * d⌋ ∧
    (get_autoaugment_timm s (d : ℚ) mean).img_mean =
      mean.map (fun x => max 0 (min 255 (pyRound (255 * x)))) := by
  have h0 : (0 : ℚ) ≤ (d : ℚ) * (45/100) := by positivity
  have hfloor : pyTrunc ((d : ℚ) * (45/100)) = ⌊(45/100 : ℚ) * (d : ℚ)⌋ := by
    unfold pyTrunc
    rw [if_pos h0, mul_comm]
  have hmap : mean.map (fun x => min 255 (pyRound (255 * x))) =
      mean.map (fun x => max 0 (min 255 (pyRound (255 * x)))) := by
    refine List.map_congr_left ?_
    intro x hxm
    have hr : (0 : ℤ) ≤ pyRound (255 * x) :=
      pyRound_nonneg _ (by have := hx x hxm; positivity)
    have hmin : (0 : ℤ) ≤ min 255 (pyRound (255 * x)) :=
      le_min (by norm_num) hr
    exact (max_eq_right hmin).symm
  unfold get_autoaugment_timm
  split_ifs <;> exact ⟨hfloor, hmap⟩

/-- C5 witness: the amended parameterization at a concrete input. -/
theorem C5_timm_params_witness :
    (get_autoaugment_timm "rand-m9" ((32 : Nat) : ℚ) [1/2]).translate_const =
      ⌊(45/100 : ℚ) * ((32 : Nat) : ℚ)⌋ ∧
    (get_autoaugment_timm "rand-m9" ((32 : Nat) : ℚ) [1/2]).img_mean =
      ([1/2] : List ℚ).map (fun x => max 0 (min 255 (pyRound (255 * x)))) :=
  C5_timm_params "rand-m9" 32 [1/2] (by intro x hx; simp at hx; subst hx; norm_num)

/-- C6 counterexample: CIFAR10 (length 50000), batch size 32, distributed mode
with world size 2: the train pass yields `ceil(50000 / 2) / 32 = 781` batches
per process, not `floor(dataset_length / batch_size) = 1562` as claimed for
every sampling strategy. -/
theorem C6_batch_counts_cex :
    Except.map (fun b => (b.trainLoader.numBatches,
        b.trainWrapped.len / min cfgBase.batch_size b.trainWrapped.len))
      (construct_dataloader cfgBase implDist hypStd false 2 4 1 0) =
      .ok (781, 1562) ∧ (781 : Nat) ≠ 1562 :=
  ⟨rfl, by decide⟩

/-- C6 (amended): the effective batch size is `min(configured, dataset_length)`
and the trailing partial batch is always dropped, for the train loader and
every validation loader; one pass yields `floor(dataset_length / batch_size)`
batches for every *non-distributed* sampling strategy and for every validation
loader (e.g. length 105 with batch size 32 gives exactly 3), while the
distributed train sampler shards the indices, so each process's pass yields
`floor(ceil(dataset_length / world_size) / batch_size)` batches. -/
theorem C6_batch_counts :
    (∀ (n bs W nw : Nat) (sh rp pin pers : Bool),
        (mkTrainLoader n bs false sh rp W nw pin pers).batch_size = min bs n ∧
        (mkTrainLoader n bs false sh rp W nw pin pers).drop_last = true ∧
        (mkTrainLoader n bs false sh rp W nw pin pers).numBatches = n / min bs n ∧
        (mkValidLoader n bs nw pin).batch_size = min bs n ∧
        (mkValidLoader n bs nw pin).drop_last = true ∧
        (mkValidLoader n bs nw pin).numBatches = n / min bs n ∧
        (mkTrainLoader n bs true sh rp W nw pin pers).numBatches =
          ((n + W - 1) / W) / min bs n) ∧
    (∀ sh rp : Bool, (mkTrainLoader 105 32 false sh rp 1 0 false false).numBatches = 3) ∧
    (mkValidLoader 105 32 0 false).numBatches = 3 ∧
    Except.map (fun b => (b.trainLoader.numBatches,
        b.validLoaders.map (fun kv => kv.2.numBatches)))
      (construct_dataloader cfgBase implStd hypStd false 1 4 1 0) = .ok (1562, [312]) := by
  refine ⟨?_, ?_, rfl, rfl⟩
  · intro n bs W nw sh rp pin pers
    refine ⟨rfl, rfl, ?_, rfl, rfl, rfl, rfl⟩
    cases sh <;> cases rp <;> rfl
  · intro sh rp
    cases sh <;> cases rp <;> rfl

/-- C7 (confirmed): the built pipeline applies the configured operations in
mapping iteration order, then tensor conversion, then — only if `normalize` —
the normalization step last; for the spec `{"Resize": 64, "ToRGB": {}}`
applied to a PIL image, resizing to exactly 64×64 happens before the
colorspace conversion, and the output is tensor-typed for either value of the
`normalize` flag. -/
theorem C7_pipeline_order (norm : Bool) (h w : Nat) :
    (parse_data_augmentations (cfgEx norm)).1 =
      [Transform.resize [64, 64], Transform.toRGB, Transform.toTensor] ++
        (if norm = true then [Transform.normalize cfgBase.mean cfgBase.std] else []) ∧
    applyOps [Transform.resize [64, 64]] (ImgValue.pil h w "L") =
      ImgValue.pil 64 64 "L" ∧
    applyOps (parse_data_augmentations (cfgEx norm)).1 (ImgValue.pil h w "L") =
      ImgValue.tensor 64 64 "RGB"
        (if norm = true then some (cfgBase.mean, cfgBase.std) else none) ∧
    (applyOps (parse_data_augmentations (cfgEx norm)).1 (ImgValue.pil h w "L")).isTensor =
      true := by
  cases norm <;> exact ⟨rfl, rfl, rfl, rfl⟩

/-- Helper: with `deterministic_subsets` the size reduction does not depend on
the ambient RNG state (the generator is seeded with the constant 89). -/
theorem sizeReduceTrain_seed_irrel (n size s1 s2 : Nat) (w : WDS) :
    sizeReduceTrain n size true s1 w = sizeReduceTrain n size true s2 w := rfl

/-- Helper: `_build_datasets` with `deterministic_subsets=True` yields the same
result for any two ambient RNG states. -/
theorem build_datasets_det (cfg : DataCfg) (cd : Bool) (s1 s2 : Nat)
    (h : cfg.deterministic_subsets = true) :
    build_datasets cfg cd s1 = build_datasets cfg cd s2 := by
  unfold build_datasets
  congr 1
  funext tv
  congr 1
  funext _stats
  congr 1
  funext validsets
  rw [h, sizeReduceTrain_seed_irrel tv.1.length cfg.size s1 s2 (WDS.base tv.1)]

/-- C8 (confirmed): with `deterministic_subsets=True` two independent runs
(any two ambient RNG states) produce identical build results — the
size-reduction permutation is drawn from a generator seeded with the fixed
constant 89 — while with the flag off the permutation comes from the unseeded
ambient RNG, and two runs may (but need not) differ. -/
theorem C8_deterministic_subsets :
    (∀ (cfg : DataCfg) (cd : Bool) (s1 s2 : Nat), cfg.deterministic_subsets = true →
        build_datasets cfg cd s1 = build_datasets cfg cd s2) ∧
    (∀ (n size s : Nat) (w : WDS), size < n →
        sizeReduceTrain n size true s w =
          WDS.subsetW w ((randperm n 89).take size)) ∧
    (∃ s1 s2 : Nat, sizeReduceTrain 3 2 false s1 (WDS.base exDS) ≠
        sizeReduceTrain 3 2 false s2 (WDS.base exDS)) := by
  refine ⟨fun cfg cd s1 s2 h => build_datasets_det cfg cd s1 s2 h, ?_, ⟨0, 1, by decide⟩⟩
  intro n size s w h
  simp [sizeReduceTrain, h]

/-- C8 witness: determinism at a concrete deterministic configuration and the
seed-89 subset at concrete sizes. -/
theorem C8_deterministic_subsets_witness :
    build_datasets cfgDet true 5 = build_datasets cfgDet true 99 ∧
    sizeReduceTrain 10 4 true 7 (WDS.base exDS) =
      WDS.subsetW (WDS.base exDS) ((randperm 10 89).take 4) :=
  ⟨C8_deterministic_subsets.1 cfgDet true 5 99 rfl,
   C8_deterministic_subsets.2.1 10 4 7 (WDS.base exDS) (by decide)⟩

/-- C9 (confirmed): `Subset.__init__` takes snapshot references to the
parent's `transform` and `classes` at construction time: rebinding the
parent's `transform` afterwards does not change the subset's `transform`,
while `classes` stays the identical reference on the parent and the subset. -/
theorem C9_subset_snapshot (d : PyDataset) (r : Nat) (idx : List Nat) (tNew : Nat)
    (h : tNew ≠ d.transform) :
    (subsetInit d r idx).transform = d.transform ∧
    (subsetInit d r idx).transform ≠ (setTransformAttr d tNew).transform ∧
    (subsetInit d r idx).classes = d.classes ∧
    (subsetInit d r idx).classes = (setTransformAttr d tNew).classes := by
  exact ⟨rfl, fun hh => h hh.symm, rfl, rfl⟩

/-- C9 witness: the snapshot behaviour at a concrete parent and mutation. -/
theorem C9_subset_snapshot_witness :
    (subsetInit ⟨3, 7⟩ 0 [0, 1]).transform = (⟨3, 7⟩ : PyDataset).transform ∧
    (subsetInit ⟨3, 7⟩ 0 [0, 1]).transform ≠
      (setTransformAttr ⟨3, 7⟩ 4).transform ∧
    (subsetInit ⟨3, 7⟩ 0 [0, 1]).classes = (⟨3, 7⟩ : PyDataset).classes ∧
    (subsetInit ⟨3, 7⟩ 0 [0, 1]).classes = (setTransformAttr ⟨3, 7⟩ 4).classes :=
  C9_subset_snapshot ⟨3, 7⟩ 0 [0, 1] 4 (by decide)

/-- C10 counterexample: with the distributed flag unset (so
`can_download=True`), the ImageNet train dataset is still opened without any
download permission — the `torchvision.datasets.ImageNet` construction passes
no download argument — refuting "download is always permitted" at this input. -/
theorem C10_download_cex :
    Except.map (fun b => b.trainWrapped.baseDS.download)
      (construct_dataloader (cfgNamed "ImageNet") implStd hypStd false 1 4 1 0) =
      .ok none ∧
    (none : Option Bool) ≠ some true :=
  ⟨rfl, by decide⟩

/-- C10 (amended): every dataset constructor that takes a download flag —
train and validation for all supported names except ImageNet, and every extra
validation set — receives exactly `not dist`; the ImageNet train/validation
datasets are always opened without a download option (data must be
pre-staged), regardless of the distributed flag. -/
theorem C10_download_flags (nm : String) (dist : Bool)
    (h : nm ∈ (["CIFAR10", "MNIST", "EMNIST", "SVHN", "CINIC10", "CIFAR100",
        "TinyImageNet"] : List String)) :
    (∃ tr vd, selectDatasets (cfgNamed nm) (!dist) = .ok (tr, vd) ∧
        tr.download = some (!dist) ∧ vd.download = some (!dist)) ∧
    (∃ tr vd, selectDatasets (cfgNamed "ImageNet") (!dist) = .ok (tr, vd) ∧
        tr.download = none ∧ vd.download = none) ∧
    (∀ enm ∈ (["CINIC10", "CIFAR10-C", "CIFAR10"] : List String),
        ∃ ds, buildExtraValid (!dist) enm = .ok ds ∧ ds.download = some (!dist)) ∧
    Except.map (fun b => b.trainWrapped.baseDS.download)
      (construct_dataloader cfgBase { implStd with dist := dist } hypStd false 1 4 1 0) =
      .ok (some (!dist)) := by
  refine ⟨?_, ⟨_, _, rfl, rfl, rfl⟩, ?_, rfl⟩
  · fin_cases h <;> exact ⟨_, _, rfl, rfl, rfl⟩
  · intro enm he
    fin_cases he <;> exact ⟨_, rfl, rfl⟩

/-- C10 witness: the amended download-flag behaviour at `MNIST` in
distributed mode. -/
theorem C10_download_flags_witness :
    (∃ tr vd, selectDatasets (cfgNamed "MNIST") (!true) = .ok (tr, vd) ∧
        tr.download = some (!true) ∧ vd.download = some (!true)) ∧
    (∃ tr vd, selectDatasets (cfgNamed "ImageNet") (!true) = .ok (tr, vd) ∧
        tr.download = none ∧ vd.download = none) ∧
    (∀ enm ∈ (["CINIC10", "CIFAR10-C", "CIFAR10"] : List String),
        ∃ ds, buildExtraValid (!true) enm = .ok ds ∧ ds.download = some (!true)) ∧
    Except.map (fun b => b.trainWrapped.baseDS.download)
      (construct_dataloader cfgBase { implStd with dist := true } hypStd false 1 4 1 0) =
      .ok (some (!true)) :=
  C10_download_flags "MNIST" true (by decide)
